import Mathlib

/-!
Shallow embedding of the particle animation engine of the emoji-overlay
extension (src/popup.js).  The engine consists of the two injected
functions `showEmojiOverlay(emoji, animationType)` and
`showImageOverlay(src, animationType)`; the two are structurally identical
in dispatch, particle counts, timers and motion laws and differ only in
the rendered element and the size ranges, so the timing / scheduling part
is embedded once and the size policies are embedded per content kind.

Conventions:
* lengths in pixels as rationals, durations in milliseconds, elapsed time
  in seconds, exactly as the source manipulates them;
* `Math.random()` draws are abstracted as rational parameters `r` with the
  hypothesis `0 ≤ r < 1` where a claim needs the documented range;
* trigonometric functions are abstracted by a `Trig` record whose
  arguments are measured in half-turns (units of π radians): the source
  expression `Math.sin(e)` with `e = c * Math.PI` is embedded as
  `T.msin c`, which keeps every phase computation exact over ℚ.
-/

namespace EmojiOverlay

/-- The kind of content a particle renders: a text glyph
(`showEmojiOverlay`) or an image reference (`showImageOverlay`). -/
inductive ContentKind
  | glyph
  | image
deriving DecidableEq

/-- The eight animation styles the engine distinguishes.  `burst` is the
final `else` branch of the dispatch chain in both overlay functions. -/
inductive AnimStyle
  | boring
  | boringGiant
  | drive
  | reverse
  | tornado
  | wave
  | drift
  | burst
deriving DecidableEq

/-- Embeds the `if/else if/.../else` chain on `animationType` at the top
of `showEmojiOverlay` and `showImageOverlay` (src/popup.js:500-907 and
1486-1899): the first branch handles both `"boring"` and
`"boring-giant"`, and the trailing `else` is the burst animation. -/
def dispatchStyle (animationType : String) : AnimStyle :=
  if animationType = "boring" then AnimStyle.boring
  else if animationType = "boring-giant" then AnimStyle.boringGiant
  else if animationType = "drive" then AnimStyle.drive
  else if animationType = "reverse" then AnimStyle.reverse
  else if animationType = "tornado" then AnimStyle.tornado
  else if animationType = "wave" then AnimStyle.wave
  else if animationType = "drift" then AnimStyle.drift
  else AnimStyle.burst

/-- The recognized style names of the specification. -/
def recognizedStyles : List String :=
  ["burst", "drive", "reverse", "tornado", "wave", "drift", "boring", "boring-giant"]

/-- Embeds the persisted-preference read
`const animationType = data.selectedAnimation || 'burst'`
(src/popup.js:119-120 and the parallel reads at 474-475):
JavaScript `||` substitutes `'burst'` exactly when the stored value is
absent (`undefined`) or the empty string; any other stored string is
returned unchanged. -/
def readSelectedAnimation (stored : Option String) : String :=
  match stored with
  | none => "burst"
  | some s => if s = "" then "burst" else s

/-- Per-style animation duration in milliseconds, the `duration` constant
of each dispatch branch. -/
def durationMs : AnimStyle → ℚ
  | AnimStyle.boring => 2500
  | AnimStyle.boringGiant => 2500
  | AnimStyle.drive => 3000
  | AnimStyle.reverse => 3000
  | AnimStyle.tornado => 4000
  | AnimStyle.wave => 4000
  | AnimStyle.drift => 3500
  | AnimStyle.burst => 2500

/-- Per-style particle count: the `particleCount` constant of each branch
(`waveCount * particlesPerWave` for drift, a single particle for the two
boring variants). -/
def particleCount : AnimStyle → Nat
  | AnimStyle.boring => 1
  | AnimStyle.boringGiant => 1
  | AnimStyle.drift => 4 * 7
  | _ => 25

/-- The per-particle stagger of the wave branch,
`const delay = (i / particleCount) * 1000` in milliseconds. -/
def waveDelayMs (i : Nat) : ℚ := ((i : ℚ) / 25) * 1000

/-- The largest stagger delay any particle of the style receives:
`(24/25)*1000` ms for wave (particle `i = 24`), `3*300` ms for drift
(wave index `w = 3`), zero for the all-at-once styles. -/
def maxStaggerMs : AnimStyle → ℚ
  | AnimStyle.wave => waveDelayMs 24
  | AnimStyle.drift => 3 * 300
  | _ => 0

/-- Lifecycle record of one particle of one invocation, all offsets in
milliseconds after the invocation:
* `insertOffset` — when `document.body.appendChild(particle)` runs;
* `animStartOffset` — when the particle's per-frame `animate` loop is
  started (its `startTime`), i.e. the particle's spawn time in the sense
  of the specification glossary (invocation time plus stagger);
* `removeOffset` — when the unconditional `setTimeout(() => particle.remove(), ...)`
  disposal timer fires; the timer is armed at creation and fires
  regardless of whether the `requestAnimationFrame` loop is still running;
* `initialOpacity` — the `opacity` value of the inline style the element
  is inserted with. -/
structure ParticleSchedule where
  insertOffset : ℚ
  animStartOffset : ℚ
  removeOffset : ℚ
  initialOpacity : ℚ
deriving DecidableEq

/-- The lifecycle schedule one invocation of the engine produces, common
to both overlay functions (their loops are identical in counts and
timers, src/popup.js:499-907 and 1485-1899):
* boring / boring-giant: one particle, inserted and animated at once,
  removed by `setTimeout(..., duration)`;
* drive / reverse / tornado / burst: 25 particles created in a
  synchronous `for` loop, each animated immediately and removed by
  `setTimeout(..., duration)`;
* wave: 25 particles created synchronously with inline `opacity: "0"`,
  the `animate` loop of particle `i` started by `setTimeout(..., delay)`
  with `delay = (i/25)*1000`, removal by `setTimeout(..., duration + delay)`;
* drift: 4 waves scheduled by `setTimeout(..., wave * 300)`, each wave
  creating 7 particles, animating each at once and arming
  `setTimeout(..., duration)` inside the wave callback. -/
def schedule : AnimStyle → List ParticleSchedule
  | AnimStyle.boring => [⟨0, 0, 2500, 1⟩]
  | AnimStyle.boringGiant => [⟨0, 0, 2500, 1⟩]
  | AnimStyle.drive => (List.range 25).map fun _ => ⟨0, 0, 3000, 1⟩
  | AnimStyle.reverse => (List.range 25).map fun _ => ⟨0, 0, 3000, 1⟩
  | AnimStyle.tornado => (List.range 25).map fun _ => ⟨0, 0, 4000, 1⟩
  | AnimStyle.wave =>
      (List.range 25).map fun i => ⟨0, waveDelayMs i, 4000 + waveDelayMs i, 0⟩
  | AnimStyle.drift =>
      (List.range 4).flatMap fun w =>
        (List.range 7).map fun _ => ⟨(w : ℚ) * 300, (w : ℚ) * 300, (w : ℚ) * 300 + 3500, 1⟩
  | AnimStyle.burst => (List.range 25).map fun _ => ⟨0, 0, 2500, 1⟩

/-- Abstract trigonometric interface.  `msin u` embeds the source
expression `Math.sin(u * Math.PI)` and `mcos u` embeds
`Math.cos(u * Math.PI)`: arguments are measured in half-turns so that
every phase the source builds out of `Math.PI` is an exact rational. -/
structure Trig where
  msin : ℚ → ℚ
  mcos : ℚ → ℚ

/-- A concrete instantiation of the trig interface used to evaluate the
embedded motion laws at specific inputs (it maps an angle to its own
half-turn measure; no trigonometric identity of it is ever assumed). -/
def idTrig : Trig := ⟨fun u => u, fun u => u⟩

/-- The values a motion law writes to the particle's style in one frame:
`left`, `top`, the `rotate(...)` component of the transform, and
`opacity`. -/
structure Frame where
  x : ℚ
  y : ℚ
  rotationDeg : ℚ
  opacity : ℚ
deriving DecidableEq

/-- The gravity constant `const gravity = 500` (px/s²) shared by the
burst and drift motion laws. -/
def gravity : ℚ := 500

/-! ### Boring / boring-giant (src/popup.js:500-539, 1486-1526) -/

/-- Font size in rem of the single boring particle:
`animationType === 'boring-giant' ? 30 : 10`. -/
def boringFontSizeRem (animationType : String) : ℚ :=
  if animationType = "boring-giant" then 30 else 10

/-- Pixel size of the single boring particle in the image overlay:
`animationType === 'boring-giant' ? 600 : 200`. -/
def boringImageSizePx (animationType : String) : ℚ :=
  if animationType = "boring-giant" then 600 else 200

/-- Progress of the boring animation, `elapsed / (duration / 1000)` with
`duration = 2500` ms and `elapsed` in seconds. -/
def boringProgress (t : ℚ) : ℚ := t / (2500 / 1000)

/-- Opacity of the boring particle,
`progress > 0.7 ? (1 - (progress - 0.7) / 0.3) : 1`. -/
def boringOpacity (progress : ℚ) : ℚ :=
  if progress > 7 / 10 then 1 - (progress - 7 / 10) / (3 / 10) else 1

/-- Frame of the boring particle: the position stays the viewport center
`(W/2, H/2)` it was inserted at, no rotation, only the opacity is
rewritten each frame. -/
def boringFrame (W H t : ℚ) : Frame :=
  { x := W / 2
  , y := H / 2
  , rotationDeg := 0
  , opacity := boringOpacity (boringProgress t) }

/-! ### Burst (default branch, src/popup.js:845-907, 1837-1899) -/

/-- Per-particle random draws of the burst branch, resolved from the
`Math.random()` calls at spawn.  `angleHT` is the launch angle in
half-turns (`Math.random() * Math.PI * 2` is `r * 2` half-turns). -/
structure BurstSpawn where
  angleHT : ℚ
  speed : ℚ
  rotationSpeed : ℚ

/-- The burst spawn sampler: with `r₁ r₂ r₃` the `Math.random()` draws,
`angle = r₁ * 2π`, `velocity = 200 + r₂ * 300`,
`rotationSpeed = (r₃ - 0.5) * 720`. -/
def burstSpawn (r₁ r₂ r₃ : ℚ) : BurstSpawn :=
  { angleHT := r₁ * 2
  , speed := 200 + r₂ * 300
  , rotationSpeed := (r₃ - 1 / 2) * 720 }

/-- Horizontal launch velocity, `Math.cos(angle) * velocity`. -/
def burstVelocityX (T : Trig) (p : BurstSpawn) : ℚ := T.mcos p.angleHT * p.speed

/-- Vertical launch velocity, `Math.sin(angle) * velocity`. -/
def burstVelocityY (T : Trig) (p : BurstSpawn) : ℚ := T.msin p.angleHT * p.speed

/-- Font size in rem drawn for a burst glyph particle, `4 + r * 6`. -/
def burstFontSizeRem (r : ℚ) : ℚ := 4 + r * 6

/-- Pixel size drawn for a burst image particle, `80 + r * 120`. -/
def burstImageSizePx (r : ℚ) : ℚ := 80 + r * 120

/-- Progress of the burst animation, `elapsed / (duration / 1000)` with
`duration = 2500` ms. -/
def burstProgress (t : ℚ) : ℚ := t / (2500 / 1000)

/-- Opacity of a burst particle,
`progress > 0.7 ? (1 - (progress - 0.7) / 0.3) : 1`. -/
def burstOpacity (progress : ℚ) : ℚ :=
  if progress > 7 / 10 then 1 - (progress - 7 / 10) / (3 / 10) else 1

/-- Frame of a burst particle at elapsed time `t` seconds:
`animateParticle` reads `startX`/`startY` back from the inline style the
spawn loop set to the viewport center, then writes
`x = startX + velocityX * elapsed`,
`y = startY + velocityY * elapsed + 0.5 * gravity * elapsed²`,
`rotation = rotationSpeed * elapsed` and the fade-tail opacity. -/
def burstFrame (W H : ℚ) (T : Trig) (p : BurstSpawn) (t : ℚ) : Frame :=
  { x := W / 2 + burstVelocityX T p * t
  , y := H / 2 + burstVelocityY T p * t + 1 / 2 * gravity * t ^ 2
  , rotationDeg := p.rotationSpeed * t
  , opacity := burstOpacity (burstProgress t) }

/-! ### Drive / reverse (src/popup.js:541-644, 1528-1633) -/

/-- Per-particle random draws of the drive branch: a vertical start
position `Math.random() * innerHeight` and a speed `300 + Math.random() * 400`. -/
structure DriveSpawn where
  startY : ℚ
  speed : ℚ

/-- The drive spawn sampler for viewport height `H` and draws `r₁ r₂`. -/
def driveSpawn (H r₁ r₂ : ℚ) : DriveSpawn :=
  { startY := r₁ * H, speed := 300 + r₂ * 400 }

/-- Horizontal position of a drive particle, `x = startX + velocity * elapsed`
with `startX = -150`. -/
def driveX (p : DriveSpawn) (t : ℚ) : ℚ := -150 + p.speed * t

/-- Opacity written for a drive particle at horizontal position `x`:
`fadeStart = screenWidth * 0.8`,
`opacity = x > fadeStart ? 1 - ((x - fadeStart) / (screenWidth * 0.2)) : 1`,
written clamped as `Math.max(0, opacity)`. -/
def driveOpacityAt (W x : ℚ) : ℚ :=
  max 0 (if x > W * (8 / 10) then 1 - (x - W * (8 / 10)) / (W * (2 / 10)) else 1)

/-- Frame of a drive particle: only `left` and `opacity` are animated;
the particle keeps its spawn `top` and carries no rotation. -/
def driveFrame (W : ℚ) (p : DriveSpawn) (t : ℚ) : Frame :=
  { x := driveX p t
  , y := p.startY
  , rotationDeg := 0
  , opacity := driveOpacityAt W (driveX p t) }

/-- Horizontal position of a reverse particle,
`startX = innerWidth + 150`, `velocity = -(300 + Math.random() * 400)`. -/
def reverseX (W : ℚ) (p : DriveSpawn) (t : ℚ) : ℚ := (W + 150) + (-p.speed) * t

/-- Opacity written for a reverse particle at position `x`:
`fadeStart = innerWidth * 0.2`,
`opacity = x < fadeStart ? 1 - ((fadeStart - x) / (innerWidth * 0.2)) : 1`,
clamped with `Math.max(0, opacity)`. -/
def reverseOpacityAt (W x : ℚ) : ℚ :=
  max 0 (if x < W * (2 / 10) then 1 - (W * (2 / 10) - x) / (W * (2 / 10)) else 1)

/-- Frame of a reverse particle. -/
def reverseFrame (W : ℚ) (p : DriveSpawn) (t : ℚ) : Frame :=
  { x := reverseX W p t
  , y := p.startY
  , rotationDeg := 0
  , opacity := reverseOpacityAt W (reverseX W p t) }

/-! ### Tornado (src/popup.js:646-700, 1635-1690) -/

/-- Initial angle of tornado particle `i`,
`(i / particleCount) * Math.PI * 2` in half-turns. -/
def tornadoStartAngleHT (i : Nat) : ℚ := ((i : ℚ) / 25) * 2

/-- Progress of the tornado animation, `elapsed / (duration / 1000)` with
`duration = 4000` ms. -/
def tornadoProgress (t : ℚ) : ℚ := t / (4000 / 1000)

/-- Angle of tornado particle `i` at elapsed `t`,
`angle = startAngle + elapsed * 3 * Math.PI` in half-turns. -/
def tornadoAngleHT (i : Nat) (t : ℚ) : ℚ := tornadoStartAngleHT i + t * 3

/-- Radius of a tornado particle, `radius = progress * 300`. -/
def tornadoRadius (t : ℚ) : ℚ := tornadoProgress t * 300

/-- Opacity written for a tornado particle,
`opacity = 1 - progress * 0.8` clamped with `Math.max(0, opacity)`. -/
def tornadoOpacity (t : ℚ) : ℚ :=
  max 0 (1 - tornadoProgress t * (8 / 10))

/-- Frame of tornado particle `i` at elapsed `t`:
`x = centerX + Math.cos(angle) * radius`,
`y = centerY + Math.sin(angle) * radius`,
`rotation = elapsed * 360`. -/
def tornadoFrame (W H : ℚ) (T : Trig) (i : Nat) (t : ℚ) : Frame :=
  { x := W / 2 + T.mcos (tornadoAngleHT i t) * tornadoRadius t
  , y := H / 2 + T.msin (tornadoAngleHT i t) * tornadoRadius t
  , rotationDeg := t * 360
  , opacity := tornadoOpacity t }

/-! ### Wave (src/popup.js:702-774, 1692-1765) -/

/-- Opacity of a wave particle as a function of its own progress:
fade in over the first 10% (`opacity = progress / 0.1`), fade out over
the last 10% (`opacity = 1 - ((progress - 0.9) / 0.1)`), otherwise 1. -/
def waveOpacity (progress : ℚ) : ℚ :=
  if progress < 1 / 10 then progress / (1 / 10)
  else if progress > 9 / 10 then 1 - (progress - 9 / 10) / (1 / 10)
  else 1

/-! ### Drift (src/popup.js:776-843, 1767-1835) -/

/-- The drift branch constant `const driftFrequency = 2`; the sine
argument it builds is `elapsed * driftFrequency * Math.PI`. -/
def driftFrequency : ℚ := 2

/-- The drift branch constant `const driftAmplitude = 30` (px). -/
def driftAmplitude : ℚ := 30

/-- Per-particle random draws of the drift branch: a horizontal spawn
position `Math.random() * innerWidth` and a base tilt
`(Math.random() - 0.5) * 40` degrees. -/
structure DriftSpawn where
  startX : ℚ
  baseTilt : ℚ

/-- The drift spawn sampler for viewport width `W` and draws `r₁ r₂`. -/
def driftSpawn (W r₁ r₂ : ℚ) : DriftSpawn :=
  { startX := r₁ * W, baseTilt := (r₂ - 1 / 2) * 40 }

/-- Vertical position of a drift particle,
`y = startY + 0.5 * gravity * elapsed²` with `startY = -100`. -/
def driftY (t : ℚ) : ℚ := -100 + 1 / 2 * gravity * t ^ 2

/-- Horizontal sinusoidal displacement of a drift particle,
`drift = Math.sin(elapsed * driftFrequency * Math.PI) * driftAmplitude`
(sine argument `elapsed * driftFrequency` half-turns). -/
def driftDisp (T : Trig) (t : ℚ) : ℚ := T.msin (t * driftFrequency) * driftAmplitude

/-- Horizontal position of a drift particle, `x = startX + drift`. -/
def driftX (p : DriftSpawn) (T : Trig) (t : ℚ) : ℚ := p.startX + driftDisp T t

/-- Tilt of a drift particle,
`tilt = baseTilt + (drift / driftAmplitude) * 15`. -/
def driftTilt (p : DriftSpawn) (T : Trig) (t : ℚ) : ℚ :=
  p.baseTilt + (driftDisp T t / driftAmplitude) * 15

/-- Opacity written for a drift particle at vertical position `y`:
`fadeStart = screenHeight * 0.8`,
`opacity = y > fadeStart ? 1 - ((y - fadeStart) / (screenHeight * 0.2)) : 1`,
clamped with `Math.max(0, opacity)`. -/
def driftOpacityAt (H y : ℚ) : ℚ :=
  max 0 (if y > H * (8 / 10) then 1 - (y - H * (8 / 10)) / (H * (2 / 10)) else 1)

/-- Frame of a drift particle at elapsed `t` seconds since its own spawn. -/
def driftFrame (H : ℚ) (p : DriftSpawn) (T : Trig) (t : ℚ) : Frame :=
  { x := driftX p T t
  , y := driftY t
  , rotationDeg := driftTilt p T t
  , opacity := driftOpacityAt H (driftY t) }

/-- Modelled from the spec: the horizontal drift displacement that §4.2
describes, a sinusoidal oscillation of amplitude 30 px and frequency
2 Hz, i.e. `30 * sin(2π * 2 * t)`; phase measured in half-turns gives the
sine argument `2 * 2 * t`. -/
def specDriftDisp2Hz (T : Trig) (t : ℚ) : ℚ :=
  T.msin (2 * driftFrequency * t) * driftAmplitude

/-- A rational lies in the unit interval. -/
def unitIntervalQ (q : ℚ) : Prop := 0 ≤ q ∧ q ≤ 1

/-!
## Theorems
-/

/-- C1: for every animation style (and both content kinds, which share
the schedule), every particle of an invocation carries an unconditional
removal timer that fires exactly at its spawn time (invocation plus
stagger, the `animStartOffset`) plus the style's duration; the timer is a
`setTimeout` armed at creation, independent of the per-frame loop, so no
particle persists past `spawnTime + duration`. -/
theorem spec_c1_unconditional_disposal (s : AnimStyle) (p : ParticleSchedule)
    (hp : p ∈ schedule s) :
    p.removeOffset = p.animStartOffset + durationMs s := by
  cases s with
  | boring =>
      simp only [schedule, List.mem_singleton] at hp
      subst hp; norm_num [durationMs]
  | boringGiant =>
      simp only [schedule, List.mem_singleton] at hp
      subst hp; norm_num [durationMs]
  | drive =>
      simp only [schedule, List.mem_map, List.mem_range] at hp
      obtain ⟨i, hi, rfl⟩ := hp
      norm_num [durationMs]
  | reverse =>
      simp only [schedule, List.mem_map, List.mem_range] at hp
      obtain ⟨i, hi, rfl⟩ := hp
      norm_num [durationMs]
  | tornado =>
      simp only [schedule, List.mem_map, List.mem_range] at hp
      obtain ⟨i, hi, rfl⟩ := hp
      norm_num [durationMs]
  | wave =>
      simp only [schedule, List.mem_map, List.mem_range] at hp
      obtain ⟨i, hi, rfl⟩ := hp
      simp only [durationMs]
      ring
  | drift =>
      simp only [schedule, List.mem_flatMap, List.mem_map, List.mem_range] at hp
      obtain ⟨w, hw, i, hi, rfl⟩ := hp
      simp only [durationMs]
  | burst =>
      simp only [schedule, List.mem_map, List.mem_range] at hp
      obtain ⟨i, hi, rfl⟩ := hp
      norm_num [durationMs]

/-- Witness for C1: the single boring particle is removed at
`0 + 2500` ms. -/
theorem spec_c1_unconditional_disposal_witness :
    (⟨0, 0, 2500, 1⟩ : ParticleSchedule) ∈ schedule AnimStyle.boring ∧
    (⟨0, 0, 2500, 1⟩ : ParticleSchedule).removeOffset =
      (⟨0, 0, 2500, 1⟩ : ParticleSchedule).animStartOffset + durationMs AnimStyle.boring :=
  ⟨by simp [schedule],
   spec_c1_unconditional_disposal AnimStyle.boring ⟨0, 0, 2500, 1⟩ (by simp [schedule])⟩

/-- C2: each style creates exactly its documented particle count (25 for
burst, drive, reverse, tornado and wave; 4 waves of 7 for drift; 1 for
boring and boring-giant), every created particle carries a removal event,
and every removal fires no later than `duration + max stagger` after the
invocation, so the document returns to its pre-invocation baseline. -/
theorem spec_c2_count_and_baseline :
    (∀ s : AnimStyle, (schedule s).length = particleCount s) ∧
    particleCount AnimStyle.burst = 25 ∧
    particleCount AnimStyle.drive = 25 ∧
    particleCount AnimStyle.reverse = 25 ∧
    particleCount AnimStyle.tornado = 25 ∧
    particleCount AnimStyle.wave = 25 ∧
    particleCount AnimStyle.drift = 4 * 7 ∧
    particleCount AnimStyle.boring = 1 ∧
    particleCount AnimStyle.boringGiant = 1 ∧
    (∀ s : AnimStyle, ∀ p ∈ schedule s,
      p.removeOffset ≤ durationMs s + maxStaggerMs s) := by
  refine ⟨?_, rfl, rfl, rfl, rfl, rfl, rfl, rfl, rfl, ?_⟩
  · intro s
    cases s <;> rfl
  · intro s p hp
    cases s with
    | boring =>
        simp only [schedule, List.mem_singleton] at hp
        subst hp; norm_num [durationMs, maxStaggerMs]
    | boringGiant =>
        simp only [schedule, List.mem_singleton] at hp
        subst hp; norm_num [durationMs, maxStaggerMs]
    | drive =>
        simp only [schedule, List.mem_map, List.mem_range] at hp
        obtain ⟨i, hi, rfl⟩ := hp
        norm_num [durationMs, maxStaggerMs]
    | reverse =>
        simp only [schedule, List.mem_map, List.mem_range] at hp
        obtain ⟨i, hi, rfl⟩ := hp
        norm_num [durationMs, maxStaggerMs]
    | tornado =>
        simp only [schedule, List.mem_map, List.mem_range] at hp
        obtain ⟨i, hi, rfl⟩ := hp
        norm_num [durationMs, maxStaggerMs]
    | wave =>
        simp only [schedule, List.mem_map, List.mem_range] at hp
        obtain ⟨i, hi, rfl⟩ := hp
        simp only [durationMs, maxStaggerMs, waveDelayMs]
        have : (i : ℚ) ≤ 24 := by
          exact_mod_cast Nat.le_of_lt_succ hi
        nlinarith
    | drift =>
        simp only [schedule, List.mem_flatMap, List.mem_map, List.mem_range] at hp
        obtain ⟨w, hw, i, hi, rfl⟩ := hp
        simp only [durationMs, maxStaggerMs]
        have : (w : ℚ) ≤ 3 := by
          exact_mod_cast Nat.le_of_lt_succ hw
        nlinarith
    | burst =>
        simp only [schedule, List.mem_map, List.mem_range] at hp
        obtain ⟨i, hi, rfl⟩ := hp
        norm_num [durationMs, maxStaggerMs]

/-- Witness for C2: the first drive particle is removed by
`3000 ≤ 3000 + 0` ms after invocation. -/
theorem spec_c2_count_and_baseline_witness :
    (⟨0, 0, 3000, 1⟩ : ParticleSchedule) ∈ schedule AnimStyle.drive ∧
    (⟨0, 0, 3000, 1⟩ : ParticleSchedule).removeOffset ≤
      durationMs AnimStyle.drive + maxStaggerMs AnimStyle.drive :=
  ⟨by simp [schedule],
   spec_c2_count_and_baseline.2.2.2.2.2.2.2.2.2 AnimStyle.drive
     ⟨0, 0, 3000, 1⟩ (by simp [schedule])⟩

/-- C3 counterexample: the persisted-preference read does not default to
`burst` for an invalid stored value — an unrecognized stored string such
as `"sparkle"` is returned unchanged. -/
theorem spec_c3_counterexample :
    readSelectedAnimation (some "sparkle") = "sparkle" ∧
    "sparkle" ≠ "burst" ∧
    "sparkle" ∉ recognizedStyles := by
  refine ⟨rfl, by decide, by decide⟩

/-- C3 (amended): every style name outside the recognized set is
dispatched to the burst animation without error; the persisted-preference
read defaults to `burst` only when the stored value is absent (or empty),
and an invalid stored name is returned unchanged — the burst fallback for
it happens in the engine's dispatch, so the composition of read and
dispatch still yields burst for absent and invalid values alike. -/
theorem spec_c3_amended_fallback (s : String) (hs : s ∉ recognizedStyles) :
    dispatchStyle s = AnimStyle.burst ∧
    readSelectedAnimation none = "burst" ∧
    dispatchStyle (readSelectedAnimation (some s)) = AnimStyle.burst := by
  simp only [recognizedStyles, List.mem_cons, List.not_mem_nil, or_false, not_or] at hs
  obtain ⟨h1, h2, h3, h4, h5, h6, h7, h8⟩ := hs
  refine ⟨?_, rfl, ?_⟩
  · simp [dispatchStyle, h2, h3, h4, h5, h6, h7, h8]
  · by_cases he : s = ""
    · subst he
      simp [readSelectedAnimation, dispatchStyle]
    · simp [readSelectedAnimation, he, dispatchStyle, h2, h3, h4, h5, h6, h7, h8]

/-- Witness for C3 amended: the unrecognized name `"plasma"`. -/
theorem spec_c3_amended_fallback_witness :
    "plasma" ∉ recognizedStyles ∧
    (dispatchStyle "plasma" = AnimStyle.burst ∧
     readSelectedAnimation none = "burst" ∧
     dispatchStyle (readSelectedAnimation (some "plasma")) = AnimStyle.burst) :=
  ⟨by decide, spec_c3_amended_fallback "plasma" (by decide)⟩

/-- C4: a burst particle with random draws in the documented ranges has
speed in 200–500 px/s and spin rate in ±360 deg/s, and the position the
motion law writes at every evaluated frame (elapsed `t < 2.5` s) is
`x = x0 + vx * t`, `y = y0 + vy * t + 0.5 * 500 * t²` with `(x0, y0)` the
viewport center and `(vx, vy)` the speed resolved along the launch angle.
Both content kinds share the motion law; they differ only in the size
draw. -/
theorem spec_c4_burst_kinematics (W H r₁ r₂ r₃ t : ℚ) (T : Trig)
    (hr₂ : 0 ≤ r₂) (hr₂1 : r₂ < 1) (hr₃ : 0 ≤ r₃) (hr₃1 : r₃ < 1)
    (ht : 0 ≤ t) (ht1 : t < 5 / 2) :
    200 ≤ (burstSpawn r₁ r₂ r₃).speed ∧
    (burstSpawn r₁ r₂ r₃).speed < 500 ∧
    -360 ≤ (burstSpawn r₁ r₂ r₃).rotationSpeed ∧
    (burstSpawn r₁ r₂ r₃).rotationSpeed < 360 ∧
    (burstFrame W H T (burstSpawn r₁ r₂ r₃) t).x
      = W / 2 + burstVelocityX T (burstSpawn r₁ r₂ r₃) * t ∧
    (burstFrame W H T (burstSpawn r₁ r₂ r₃) t).y
      = H / 2 + burstVelocityY T (burstSpawn r₁ r₂ r₃) * t + 1 / 2 * 500 * t ^ 2 := by
  refine ⟨?_, ?_, ?_, ?_, rfl, ?_⟩
  · simp only [burstSpawn]; linarith
  · simp only [burstSpawn]; linarith
  · simp only [burstSpawn]; linarith
  · simp only [burstSpawn]; linarith
  · simp only [burstFrame, gravity]

/-- Witness for C4: the draws `r₁ = r₂ = r₃ = 0`, viewport 1000×600,
elapsed 1 s, trig evaluated through `idTrig`. -/
theorem spec_c4_burst_kinematics_witness :
    200 ≤ (burstSpawn 0 0 0).speed ∧
    (burstSpawn 0 0 0).speed < 500 ∧
    -360 ≤ (burstSpawn 0 0 0).rotationSpeed ∧
    (burstSpawn 0 0 0).rotationSpeed < 360 ∧
    (burstFrame 1000 600 idTrig (burstSpawn 0 0 0) 1).x
      = 1000 / 2 + burstVelocityX idTrig (burstSpawn 0 0 0) * 1 ∧
    (burstFrame 1000 600 idTrig (burstSpawn 0 0 0) 1).y
      = 600 / 2 + burstVelocityY idTrig (burstSpawn 0 0 0) * 1 + 1 / 2 * 500 * 1 ^ 2 :=
  spec_c4_burst_kinematics 1000 600 0 0 0 1 idTrig (by norm_num) (by norm_num)
    (by norm_num) (by norm_num) (by norm_num) (by norm_num)

/-- C5 counterexample: the drift oscillation is not a 2 Hz sinusoid.
The source computes `Math.sin(elapsed * 2 * Math.PI) * 30`, a sine of
phase `2t` half-turns (angular velocity 2π rad/s, i.e. one full cycle
per second), while a 2 Hz oscillation has phase `2·2·t` half-turns; the
two displacement functionals already differ at `t = 1` under the
evaluation trig `idTrig`. -/
theorem spec_c5_counterexample :
    driftDisp idTrig 1 = 60 ∧
    specDriftDisp2Hz idTrig 1 = 120 ∧
    driftDisp idTrig 1 ≠ specDriftDisp2Hz idTrig 1 := by
  norm_num [driftDisp, specDriftDisp2Hz, idTrig, driftFrequency, driftAmplitude]

/-- C5 (amended): drift particles appear in 4 waves of 7 spaced 300 ms
apart, each falling for 3.5 s from its own spawn time, starting 100 px
above the viewport under constant 500 px/s² downward acceleration; the
horizontal displacement is a sinusoidal oscillation of amplitude 30 px at
frequency 1 Hz (sine phase `2π·t`, not the claimed 2 Hz) around the spawn
x, and the tilt is the random base tilt plus half the current drift. -/
theorem spec_c5_amended_drift (T : Trig) (p : ParticleSchedule)
    (hp : p ∈ schedule AnimStyle.drift) (q : DriftSpawn) (t : ℚ) :
    (schedule AnimStyle.drift).length = 4 * 7 ∧
    durationMs AnimStyle.drift = 3500 ∧
    (∃ w : Nat, w < 4 ∧ p.insertOffset = (w : ℚ) * 300 ∧
      p.animStartOffset = p.insertOffset ∧
      p.removeOffset = p.insertOffset + 3500) ∧
    driftY t = -100 + 1 / 2 * 500 * t ^ 2 ∧
    driftX q T t = q.startX + 30 * T.msin (2 * t) ∧
    driftTilt q T t = q.baseTilt + 1 / 2 * driftDisp T t := by
  refine ⟨rfl, rfl, ?_, rfl, ?_, ?_⟩
  · simp only [schedule, List.mem_flatMap, List.mem_map, List.mem_range] at hp
    obtain ⟨w, hw, i, hi, rfl⟩ := hp
    exact ⟨w, hw, rfl, rfl, rfl⟩
  · simp only [driftX, driftDisp, driftFrequency, driftAmplitude]
    rw [mul_comm t 2]
    ring
  · simp only [driftTilt, driftDisp, driftAmplitude]
    ring

/-- Witness for C5 amended: the first drift particle of the first wave,
evaluated at `t = 1` with spawn draws 0 through `idTrig`. -/
theorem spec_c5_amended_drift_witness :
    (⟨0, 0, 3500, 1⟩ : ParticleSchedule) ∈ schedule AnimStyle.drift ∧
    ((schedule AnimStyle.drift).length = 4 * 7 ∧
     durationMs AnimStyle.drift = 3500 ∧
     (∃ w : Nat, w < 4 ∧
       (⟨0, 0, 3500, 1⟩ : ParticleSchedule).insertOffset = (w : ℚ) * 300 ∧
       (⟨0, 0, 3500, 1⟩ : ParticleSchedule).animStartOffset =
         (⟨0, 0, 3500, 1⟩ : ParticleSchedule).insertOffset ∧
       (⟨0, 0, 3500, 1⟩ : ParticleSchedule).removeOffset =
         (⟨0, 0, 3500, 1⟩ : ParticleSchedule).insertOffset + 3500) ∧
     driftY 1 = -100 + 1 / 2 * 500 * 1 ^ 2 ∧
     driftX (driftSpawn 1000 0 0) idTrig 1 =
       (driftSpawn 1000 0 0).startX + 30 * idTrig.msin (2 * 1) ∧
     driftTilt (driftSpawn 1000 0 0) idTrig 1 =
       (driftSpawn 1000 0 0).baseTilt + 1 / 2 * driftDisp idTrig 1) :=
  ⟨by simp [schedule],
   spec_c5_amended_drift idTrig ⟨0, 0, 3500, 1⟩ (by simp [schedule])
     (driftSpawn 1000 0 0) 1⟩

/-- C6 counterexample: wave is a staggered style, yet its second particle
(index 1, stagger 40 ms) is inserted into the document at invocation time
(`insertOffset = 0`), not at its delayed start time — the `appendChild`
runs synchronously in the spawn loop and only the `animate` loop is
deferred. -/
theorem spec_c6_counterexample :
    (⟨0, 40, 4040, 0⟩ : ParticleSchedule) ∈ schedule AnimStyle.wave ∧
    (⟨0, 40, 4040, 0⟩ : ParticleSchedule).animStartOffset = 40 ∧
    (⟨0, 40, 4040, 0⟩ : ParticleSchedule).insertOffset ≠
      (⟨0, 40, 4040, 0⟩ : ParticleSchedule).animStartOffset := by
  refine ⟨?_, rfl, by norm_num⟩
  simp only [schedule, List.mem_map, List.mem_range]
  refine ⟨1, by norm_num, ?_⟩
  simp only [waveDelayMs, ParticleSchedule.mk.injEq]
  norm_num

/-- C6 (amended): the all-at-once styles (burst, drive, reverse, tornado,
boring, boring-giant) insert all particles and start all animations
immediately at invocation; drift particles are inserted at their delayed
wave times (insertion coincides with animation start); wave particles are
inserted immediately at invocation with opacity 0 and only their
animation starts at the computed per-particle delay (between 0 and
960 ms). -/
theorem spec_c6_amended_spawn (s : AnimStyle) (p : ParticleSchedule)
    (hp : p ∈ schedule s) :
    (s ≠ AnimStyle.wave ∧ s ≠ AnimStyle.drift →
      p.insertOffset = 0 ∧ p.animStartOffset = 0) ∧
    (s = AnimStyle.drift → p.insertOffset = p.animStartOffset) ∧
    (s = AnimStyle.wave →
      p.insertOffset = 0 ∧ p.initialOpacity = 0 ∧
      0 ≤ p.animStartOffset ∧ p.animStartOffset ≤ waveDelayMs 24) := by
  cases s with
  | boring =>
      simp only [schedule, List.mem_singleton] at hp
      subst hp
      refine ⟨fun _ => ⟨rfl, rfl⟩, ?_, ?_⟩ <;> intro h <;> exact absurd h (by decide)
  | boringGiant =>
      simp only [schedule, List.mem_singleton] at hp
      subst hp
      refine ⟨fun _ => ⟨rfl, rfl⟩, ?_, ?_⟩ <;> intro h <;> exact absurd h (by decide)
  | drive =>
      simp only [schedule, List.mem_map, List.mem_range] at hp
      obtain ⟨i, hi, rfl⟩ := hp
      refine ⟨fun _ => ⟨rfl, rfl⟩, ?_, ?_⟩ <;> intro h <;> exact absurd h (by decide)
  | reverse =>
      simp only [schedule, List.mem_map, List.mem_range] at hp
      obtain ⟨i, hi, rfl⟩ := hp
      refine ⟨fun _ => ⟨rfl, rfl⟩, ?_, ?_⟩ <;> intro h <;> exact absurd h (by decide)
  | tornado =>
      simp only [schedule, List.mem_map, List.mem_range] at hp
      obtain ⟨i, hi, rfl⟩ := hp
      refine ⟨fun _ => ⟨rfl, rfl⟩, ?_, ?_⟩ <;> intro h <;> exact absurd h (by decide)
  | wave =>
      simp only [schedule, List.mem_map, List.mem_range] at hp
      obtain ⟨i, hi, rfl⟩ := hp
      refine ⟨?_, ?_, ?_⟩
      · intro h
        exact absurd rfl h.1
      · intro h
        exact absurd h (by decide)
      · intro _
        refine ⟨rfl, rfl, ?_, ?_⟩
        · simp only [waveDelayMs]
          positivity
        · simp only [waveDelayMs]
          have : (i : ℚ) ≤ 24 := by exact_mod_cast Nat.le_of_lt_succ hi
          nlinarith
  | drift =>
      simp only [schedule, List.mem_flatMap, List.mem_map, List.mem_range] at hp
      obtain ⟨w, hw, i, hi, rfl⟩ := hp
      refine ⟨?_, fun _ => rfl, ?_⟩
      · intro h
        exact absurd rfl h.2
      · intro h
        exact absurd h (by decide)
  | burst =>
      simp only [schedule, List.mem_map, List.mem_range] at hp
      obtain ⟨i, hi, rfl⟩ := hp
      refine ⟨fun _ => ⟨rfl, rfl⟩, ?_, ?_⟩ <;> intro h <;> exact absurd h (by decide)

/-- Witness for C6 amended: the first tornado particle is inserted and
animated at invocation time. -/
theorem spec_c6_amended_spawn_witness :
    (⟨0, 0, 4000, 1⟩ : ParticleSchedule) ∈ schedule AnimStyle.tornado ∧
    ((AnimStyle.tornado ≠ AnimStyle.wave ∧ AnimStyle.tornado ≠ AnimStyle.drift →
       (⟨0, 0, 4000, 1⟩ : ParticleSchedule).insertOffset = 0 ∧
       (⟨0, 0, 4000, 1⟩ : ParticleSchedule).animStartOffset = 0) ∧
     (AnimStyle.tornado = AnimStyle.drift →
       (⟨0, 0, 4000, 1⟩ : ParticleSchedule).insertOffset =
         (⟨0, 0, 4000, 1⟩ : ParticleSchedule).animStartOffset) ∧
     (AnimStyle.tornado = AnimStyle.wave →
       (⟨0, 0, 4000, 1⟩ : ParticleSchedule).insertOffset = 0 ∧
       (⟨0, 0, 4000, 1⟩ : ParticleSchedule).initialOpacity = 0 ∧
       0 ≤ (⟨0, 0, 4000, 1⟩ : ParticleSchedule).animStartOffset ∧
       (⟨0, 0, 4000, 1⟩ : ParticleSchedule).animStartOffset ≤ waveDelayMs 24)) :=
  ⟨by simp [schedule],
   spec_c6_amended_spawn AnimStyle.tornado ⟨0, 0, 4000, 1⟩ (by simp [schedule])⟩

/-- C7: for every animation style (the motion laws are shared by both
content kinds) the opacity written at any evaluated frame lies in
`[0, 1]`: the fade-tail formulas of boring and burst and the three-piece
wave fade are bounded by the `progress < 1` loop guard, and the
drive / reverse / tornado / drift formulas are written through a
`Math.max(0, ·)` clamp and never exceed 1 for a positive viewport. -/
theorem spec_c7_opacity_unit_interval (W H x y pr tt : ℚ)
    (hW : 0 < W) (hH : 0 < H) (hpr : 0 ≤ pr) (hpr1 : pr < 1) (htt : 0 ≤ tt) :
    unitIntervalQ (boringOpacity pr) ∧
    unitIntervalQ (burstOpacity pr) ∧
    unitIntervalQ (driveOpacityAt W x) ∧
    unitIntervalQ (reverseOpacityAt W x) ∧
    unitIntervalQ (tornadoOpacity tt) ∧
    unitIntervalQ (waveOpacity pr) ∧
    unitIntervalQ (driftOpacityAt H y) := by
  have hclamp : ∀ r : ℚ, r ≤ 1 → unitIntervalQ (max 0 r) := fun r hr =>
    ⟨le_max_left 0 r, max_le (by norm_num) hr⟩
  have hfade : ∀ q : ℚ, 0 ≤ q → q < 1 →
      unitIntervalQ (if q > 7 / 10 then 1 - (q - 7 / 10) / (3 / 10) else 1) := by
    intro q hq hq1
    have hdiv : (q - 7 / 10) / (3 / 10) = (10 / 3) * (q - 7 / 10) := by ring
    constructor
    · split_ifs with h
      · rw [hdiv]; linarith
      · norm_num
    · split_ifs with h
      · rw [hdiv]; linarith
      · norm_num
  refine ⟨?_, ?_, ?_, ?_, ?_, ?_, ?_⟩
  · simpa [boringOpacity] using hfade pr hpr hpr1
  · simpa [burstOpacity] using hfade pr hpr hpr1
  · refine hclamp _ ?_
    split_ifs with h
    · have hd : 0 < W * (2 / 10) := by nlinarith
      have : 0 ≤ (x - W * (8 / 10)) / (W * (2 / 10)) :=
        div_nonneg (by linarith) hd.le
      linarith
    · norm_num
  · refine hclamp _ ?_
    split_ifs with h
    · have hd : 0 < W * (2 / 10) := by nlinarith
      have : 0 ≤ (W * (2 / 10) - x) / (W * (2 / 10)) :=
        div_nonneg (by linarith) hd.le
      linarith
    · norm_num
  · refine hclamp _ ?_
    have : 0 ≤ tornadoProgress tt := by
      simp only [tornadoProgress]
      positivity
    nlinarith
  · have h10 : ((1 : ℚ) / 10) ≠ 0 := by norm_num
    constructor
    · simp only [waveOpacity]
      split_ifs with h1 h2
      · positivity
      · have : (pr - 9 / 10) / (1 / 10) = 10 * (pr - 9 / 10) := by ring
        rw [this]; linarith
      · norm_num
    · simp only [waveOpacity]
      split_ifs with h1 h2
      · have : pr / (1 / 10) = 10 * pr := by ring
        rw [this]; linarith
      · have : (pr - 9 / 10) / (1 / 10) = 10 * (pr - 9 / 10) := by ring
        rw [this]; linarith
      · norm_num
  · refine hclamp _ ?_
    split_ifs with h
    · have hd : 0 < H * (2 / 10) := by nlinarith
      have : 0 ≤ (y - H * (8 / 10)) / (H * (2 / 10)) :=
        div_nonneg (by linarith) hd.le
      linarith
    · norm_num

/-- Witness for C7: viewport 100×100, positions 0, progress 1/2, tornado
elapsed 1 s. -/
theorem spec_c7_opacity_unit_interval_witness :
    unitIntervalQ (boringOpacity (1 / 2)) ∧
    unitIntervalQ (burstOpacity (1 / 2)) ∧
    unitIntervalQ (driveOpacityAt 100 0) ∧
    unitIntervalQ (reverseOpacityAt 100 0) ∧
    unitIntervalQ (tornadoOpacity 1) ∧
    unitIntervalQ (waveOpacity (1 / 2)) ∧
    unitIntervalQ (driftOpacityAt 100 0) :=
  spec_c7_opacity_unit_interval 100 100 0 0 (1 / 2) 1 (by norm_num) (by norm_num)
    (by norm_num) (by norm_num) (by norm_num)

/-- C8: tornado particle `i` starts at angle `(i/25)·2π` (in half-turns
`(i/25)·2`), its angle advances 3 half-turns — 1.5 rotations — per
second, its radius grows linearly with progress toward 300 px, its
self-rotation is `t·360` degrees and its opacity is `1 − 0.8·progress`:
3/5 at the midpoint `t = 2` (never fully transparent) and exactly 1/5 at
completion `t = 4`.  The emoji and image variants share these formulas. -/
theorem spec_c8_tornado_motion (W H : ℚ) (T : Trig) (i : Nat) (t : ℚ)
    (hi : i < 25) (ht : 0 ≤ t) (ht1 : t < 4) :
    tornadoAngleHT i 0 = ((i : ℚ) / 25) * 2 ∧
    tornadoAngleHT i t - tornadoAngleHT i 0 = 3 * t ∧
    tornadoRadius t = (t / 4) * 300 ∧
    (tornadoFrame W H T i t).rotationDeg = t * 360 ∧
    (tornadoFrame W H T i t).opacity = 1 - 8 / 10 * (t / 4) ∧
    1 / 5 < (tornadoFrame W H T i t).opacity ∧
    tornadoOpacity 4 = 1 / 5 ∧
    tornadoOpacity 2 = 3 / 5 := by
  have hprog : tornadoProgress t = t / 4 := by
    simp only [tornadoProgress]
    norm_num
  have hraw : (1 : ℚ) / 5 < 1 - tornadoProgress t * (8 / 10) := by
    rw [hprog]; nlinarith
  have hop : tornadoOpacity t = 1 - tornadoProgress t * (8 / 10) := by
    simp only [tornadoOpacity]
    exact max_eq_right (by linarith)
  refine ⟨?_, ?_, ?_, rfl, ?_, ?_, ?_, ?_⟩
  · simp [tornadoAngleHT, tornadoStartAngleHT]
  · simp only [tornadoAngleHT]; ring
  · simp only [tornadoRadius, hprog]
  · show tornadoOpacity t = 1 - 8 / 10 * (t / 4)
    rw [hop, hprog]; ring
  · show 1 / 5 < tornadoOpacity t
    rw [hop]; exact hraw
  · simp only [tornadoOpacity, tornadoProgress]
    norm_num
  · simp only [tornadoOpacity, tornadoProgress]
    rw [max_eq_right (by norm_num)]
    norm_num

/-- Witness for C8: particle `i = 5` at `t = 1` on a 1000×600 viewport
through `idTrig`. -/
theorem spec_c8_tornado_motion_witness :
    tornadoAngleHT 5 0 = ((5 : ℚ) / 25) * 2 ∧
    tornadoAngleHT 5 1 - tornadoAngleHT 5 0 = 3 * 1 ∧
    tornadoRadius 1 = ((1 : ℚ) / 4) * 300 ∧
    (tornadoFrame 1000 600 idTrig 5 1).rotationDeg = 1 * 360 ∧
    (tornadoFrame 1000 600 idTrig 5 1).opacity = 1 - 8 / 10 * (1 / 4) ∧
    1 / 5 < (tornadoFrame 1000 600 idTrig 5 1).opacity ∧
    tornadoOpacity 4 = 1 / 5 ∧
    tornadoOpacity 2 = 3 / 5 :=
  spec_c8_tornado_motion 1000 600 idTrig 5 1 (by norm_num) (by norm_num) (by norm_num)

/-- C10: wave particles are the only particles inserted with initial
opacity 0 — every other style inserts fully opaque — and a wave particle
is inserted at invocation time; its fade-in formula starts from opacity 0
(`waveOpacity` vanishes at progress 0 and equals `progress · 10` during
the first tenth, so it only becomes visible once its stagger delay has
elapsed and its own progress advances). -/
theorem spec_c10_wave_initial_opacity (s : AnimStyle) (p : ParticleSchedule)
    (hp : p ∈ schedule s) (q : ℚ) (hq : 0 ≤ q) (hq1 : q < 1 / 10) :
    (p.initialOpacity = 0 ↔ s = AnimStyle.wave) ∧
    (s = AnimStyle.wave → p.insertOffset = 0) ∧
    waveOpacity 0 = 0 ∧
    waveOpacity q = q * 10 := by
  have hw0 : waveOpacity 0 = 0 := by
    simp [waveOpacity]
  have hwq : waveOpacity q = q * 10 := by
    simp only [waveOpacity, if_pos hq1]
    ring
  cases s with
  | boring =>
      simp only [schedule, List.mem_singleton] at hp
      subst hp
      refine ⟨iff_of_false (by norm_num) (by decide), ?_, hw0, hwq⟩
      intro h
      exact absurd h (by decide)
  | boringGiant =>
      simp only [schedule, List.mem_singleton] at hp
      subst hp
      refine ⟨iff_of_false (by norm_num) (by decide), ?_, hw0, hwq⟩
      intro h
      exact absurd h (by decide)
  | drive =>
      simp only [schedule, List.mem_map, List.mem_range] at hp
      obtain ⟨i, hi, rfl⟩ := hp
      refine ⟨iff_of_false (by norm_num) (by decide), ?_, hw0, hwq⟩
      intro h
      exact absurd h (by decide)
  | reverse =>
      simp only [schedule, List.mem_map, List.mem_range] at hp
      obtain ⟨i, hi, rfl⟩ := hp
      refine ⟨iff_of_false (by norm_num) (by decide), ?_, hw0, hwq⟩
      intro h
      exact absurd h (by decide)
  | tornado =>
      simp only [schedule, List.mem_map, List.mem_range] at hp
      obtain ⟨i, hi, rfl⟩ := hp
      refine ⟨iff_of_false (by norm_num) (by decide), ?_, hw0, hwq⟩
      intro h
      exact absurd h (by decide)
  | wave =>
      simp only [schedule, List.mem_map, List.mem_range] at hp
      obtain ⟨i, hi, rfl⟩ := hp
      exact ⟨iff_of_true rfl rfl, fun _ => rfl, hw0, hwq⟩
  | drift =>
      simp only [schedule, List.mem_flatMap, List.mem_map, List.mem_range] at hp
      obtain ⟨w, hw, i, hi, rfl⟩ := hp
      refine ⟨iff_of_false (by norm_num) (by decide), ?_, hw0, hwq⟩
      intro h
      exact absurd h (by decide)
  | burst =>
      simp only [schedule, List.mem_map, List.mem_range] at hp
      obtain ⟨i, hi, rfl⟩ := hp
      refine ⟨iff_of_false (by norm_num) (by decide), ?_, hw0, hwq⟩
      intro h
      exact absurd h (by decide)

/-- Witness for C10: the first wave particle, with fade-in evaluated at
progress 1/20. -/
theorem spec_c10_wave_initial_opacity_witness :
    (⟨0, 0, 4000, 0⟩ : ParticleSchedule) ∈ schedule AnimStyle.wave ∧
    (((⟨0, 0, 4000, 0⟩ : ParticleSchedule).initialOpacity = 0 ↔
        AnimStyle.wave = AnimStyle.wave) ∧
     (AnimStyle.wave = AnimStyle.wave →
        (⟨0, 0, 4000, 0⟩ : ParticleSchedule).insertOffset = 0) ∧
     waveOpacity 0 = 0 ∧
     waveOpacity (1 / 20) = 1 / 20 * 10) := by
  have hmem : (⟨0, 0, 4000, 0⟩ : ParticleSchedule) ∈ schedule AnimStyle.wave := by
    simp only [schedule, List.mem_map, List.mem_range]
    exact ⟨0, by norm_num, by simp [waveDelayMs]⟩
  exact ⟨hmem,
    spec_c10_wave_initial_opacity AnimStyle.wave ⟨0, 0, 4000, 0⟩ hmem (1 / 20)
      (by norm_num) (by norm_num)⟩

/-- C9: for equal content kind the boring-giant particle is rendered
exactly 3 times the size of the boring particle — font scale 30 rem vs
10 rem for glyph content, 600 px vs 200 px for image content. -/
theorem spec_c9_boring_giant_triple_size :
    boringFontSizeRem "boring-giant" = 3 * boringFontSizeRem "boring" ∧
    boringImageSizePx "boring-giant" = 3 * boringImageSizePx "boring" := by
  have h : ("boring" : String) ≠ "boring-giant" := by decide
  norm_num [boringFontSizeRem, boringImageSizePx, h]

end EmojiOverlay
